import Mathlib

/-
Verification development for the FringeStageVote contract
(src/fhevm-hardhat-template/contracts/FringeStageVote.sol).

Shallow embedding conventions:
- Solidity uint256 values (timestamps, session ids, vote counts) are Nat;
  none of the modelled operations can overflow uint256 on reachable data.
- Addresses are Nat.
- euint16 ciphertexts are modelled by their plaintext value: FHE.asEuint16
  and FHE.fromExternal reduce modulo 2^16 and FHE.add is addition modulo
  2^16 (the fhevm euint16 type wraps on overflow); decryption is the
  identity on the modelled plaintext.  FHE.allow / FHE.allowThis manage
  off-chain decryption permissions and have no effect on contract state,
  so they are not modelled.
- A mapping is a total function with the Solidity zero-value default; the
  address => bool mappings are modelled as Finset Nat (the set of keys
  mapped to true).
- External functions become state transformers returning
  Except VoteError ...; an error models revert, in which case no state
  change survives (Solidity reverts roll back the whole call).
- require(cond, "msg") style reverts are VoteError.RevertMsg "msg";
  the checked-arithmetic division-by-zero revert Panic(0x12) is
  VoteError.ArithmeticError 18.
- Events are not modelled (no claim is about logs), except that the
  division performed while computing the DecryptionCompleted event
  averages in storeDecryptedResults is modelled, because its
  division-by-zero revert is an observable effect of the call.
-/

namespace FringeStageVote

abbrev Address := Nat

/-- FHE.asEuint16: a plaintext constant as a euint16 value. -/
def fheAsEuint16 (n : Nat) : Nat := n % 65536

/-- FHE.fromExternal: an external encrypted input, guaranteed by its
zero-knowledge proof to carry a 16-bit plaintext. -/
def fheFromExternal (x : Nat) : Nat := x % 65536

/-- FHE.add on euint16: homomorphic addition, wrapping modulo 2^16. -/
def fheAdd (a b : Nat) : Nat := (a + b) % 65536

/-- struct Session (FringeStageVote.sol lines 12-27). -/
structure Session where
  title : String
  venue : String
  startTime : Nat
  endTime : Nat
  theaterCompany : Address
  voteCount : Nat
  isActive : Bool
  decryptionRequested : Bool
  decryptionCompleted : Bool
  aggregatedPlotTension : Nat
  aggregatedPerformance : Nat
  aggregatedStageDesign : Nat
  aggregatedPacing : Nat
deriving Repr, DecidableEq

/-- The Solidity zero value of struct Session (value of _sessions at a
key that was never written). -/
def zeroSession : Session :=
  { title := "", venue := "", startTime := 0, endTime := 0, theaterCompany := 0,
    voteCount := 0, isActive := false, decryptionRequested := false,
    decryptionCompleted := false, aggregatedPlotTension := 0,
    aggregatedPerformance := 0, aggregatedStageDesign := 0, aggregatedPacing := 0 }

/-- struct DecryptedResults (lines 30-35). -/
structure DecryptedResults where
  totalPlotTension : Nat
  totalPerformance : Nat
  totalStageDesign : Nat
  totalPacing : Nat
deriving Repr, DecidableEq

/-- The Solidity zero value of struct DecryptedResults. -/
def zeroResults : DecryptedResults :=
  { totalPlotTension := 0, totalPerformance := 0, totalStageDesign := 0, totalPacing := 0 }

/-- The contract storage (state variables, lines 38-42). -/
structure VoteState where
  nextSessionId : Nat
  sessions : Nat → Session
  decryptedResults : Nat → DecryptedResults
  hasVotedSet : Nat → Finset Address
  authorizedTheaters : Nat → Finset Address

/-- Storage of a freshly deployed contract: every mapping at its zero
value, _nextSessionId = 0. -/
def initState : VoteState :=
  { nextSessionId := 0, sessions := fun _ => zeroSession,
    decryptedResults := fun _ => zeroResults,
    hasVotedSet := fun _ => ∅, authorizedTheaters := fun _ => ∅ }

/-- The custom errors of the contract (lines 82-91) plus the two
require-style string reverts and the checked-arithmetic revert. -/
inductive VoteError where
  | SessionNotFound
  | SessionNotActive
  | SessionNotEnded
  | AlreadyVoted
  | UnauthorizedTheater
  | InsufficientVotes
  | InvalidRatingValue
  | DecryptionAlreadyRequested
  | OnlyTheaterCompany
  | SessionStillActive
  | RevertMsg (msg : String)
  | ArithmeticError (code : Nat)
deriving Repr, DecidableEq

/-- MIN_VOTES_FOR_DECRYPTION (line 45). -/
def MIN_VOTES_FOR_DECRYPTION : Nat := 1

/-- Point update of the _sessions mapping. -/
def setSession (st : VoteState) (sessionId : Nat) (s : Session) : VoteState :=
  { st with sessions := fun n => if n = sessionId then s else st.sessions n }

/-- createSession (lines 99-132).  Never reverts; returns the new id and
the updated storage. -/
def createSession (st : VoteState) (sender : Address) (title venue : String)
    (startTime endTime : Nat) : Nat × VoteState :=
  let sessionId := st.nextSessionId
  let session : Session :=
    { title := title, venue := venue, startTime := startTime, endTime := endTime,
      theaterCompany := sender, voteCount := 0, isActive := true,
      decryptionRequested := false, decryptionCompleted := false,
      aggregatedPlotTension := fheAsEuint16 0,
      aggregatedPerformance := fheAsEuint16 0,
      aggregatedStageDesign := fheAsEuint16 0,
      aggregatedPacing := fheAsEuint16 0 }
  let st1 := { st with nextSessionId := sessionId + 1 }
  let st2 := setSession st1 sessionId session
  let st3 := { st2 with authorizedTheaters := fun n =>
    if n = sessionId then insert sender (st2.authorizedTheaters n)
    else st2.authorizedTheaters n }
  (sessionId, st3)

/-- _validateVote (lines 164-172): the four submitVote preconditions,
checked in source order. -/
def validateVote (st : VoteState) (sender : Address) (now sessionId : Nat) :
    Except VoteError Unit :=
  let session := st.sessions sessionId
  if session.startTime = 0 then .error .SessionNotFound
  else if session.isActive = false then .error .SessionNotActive
  else if now < session.startTime ∨ session.endTime < now then .error .SessionNotActive
  else if sender ∈ st.hasVotedSet sessionId then .error .AlreadyVoted
  else .ok ()

/-- _processVote (lines 175-209): homomorphically add the four ratings
into the accumulators, mark the voter, increment voteCount. -/
def processVote (st : VoteState) (sender : Address) (sessionId : Nat)
    (inputPlotTension inputPerformance inputStageDesign inputPacing : Nat) : VoteState :=
  let session := st.sessions sessionId
  let session1 :=
    { session with
      aggregatedPlotTension :=
        fheAdd session.aggregatedPlotTension (fheFromExternal inputPlotTension),
      aggregatedPerformance :=
        fheAdd session.aggregatedPerformance (fheFromExternal inputPerformance),
      aggregatedStageDesign :=
        fheAdd session.aggregatedStageDesign (fheFromExternal inputStageDesign),
      aggregatedPacing :=
        fheAdd session.aggregatedPacing (fheFromExternal inputPacing),
      voteCount := session.voteCount + 1 }
  let st1 := setSession st sessionId session1
  { st1 with hasVotedSet := fun n =>
    if n = sessionId then insert sender (st1.hasVotedSet n) else st1.hasVotedSet n }

/-- submitVote (lines 145-161).  The last parameter models the bytes32
commentHash argument, which the source deliberately leaves unnamed and
never reads. -/
def submitVote (st : VoteState) (sender : Address) (now sessionId : Nat)
    (inputPlotTension inputPerformance inputStageDesign inputPacing : Nat)
    (commentHash : Nat) : Except VoteError VoteState :=
  match validateVote st sender now sessionId with
  | .error e => .error e
  | .ok _ =>
    .ok (processVote st sender sessionId
      inputPlotTension inputPerformance inputStageDesign inputPacing)

/-- authorizeTheater (lines 214-229). -/
def authorizeTheater (st : VoteState) (sender : Address) (sessionId : Nat)
    (theaterAddress : Address) : Except VoteError VoteState :=
  let session := st.sessions sessionId
  if session.startTime = 0 then .error .SessionNotFound
  else if sender ≠ session.theaterCompany then .error .OnlyTheaterCompany
  else .ok { st with authorizedTheaters := fun n =>
    if n = sessionId then insert theaterAddress (st.authorizedTheaters n)
    else st.authorizedTheaters n }

/-- requestDecryption (lines 233-256). -/
def requestDecryption (st : VoteState) (sender : Address) (now sessionId : Nat) :
    Except VoteError VoteState :=
  let session := st.sessions sessionId
  if session.startTime = 0 then .error .SessionNotFound
  else if sender ∉ st.authorizedTheaters sessionId then .error .UnauthorizedTheater
  else if session.isActive = true ∧ now ≤ session.endTime then .error .SessionStillActive
  else if session.voteCount < MIN_VOTES_FOR_DECRYPTION then .error .InsufficientVotes
  else if session.decryptionRequested = true then .error .DecryptionAlreadyRequested
  else .ok (setSession st sessionId { session with decryptionRequested := true })

/-- endSession (lines 260-267).  Note the source reads no timestamp:
there is no time-window check. -/
def endSession (st : VoteState) (sender : Address) (sessionId : Nat) :
    Except VoteError VoteState :=
  let session := st.sessions sessionId
  if session.startTime = 0 then .error .SessionNotFound
  else if sender ≠ session.theaterCompany then .error .OnlyTheaterCompany
  else .ok (setSession st sessionId { session with isActive := false })

/-- hasVoted (lines 273-275): a plain mapping read, with no session
existence check in the source. -/
def hasVoted (st : VoteState) (sessionId : Nat) (voter : Address) :
    Except VoteError Bool :=
  .ok (decide (voter ∈ st.hasVotedSet sessionId))

/-- isAuthorized (lines 281-283): a plain mapping read, with no session
existence check in the source. -/
def isAuthorized (st : VoteState) (sessionId : Nat) (theaterAddress : Address) :
    Except VoteError Bool :=
  .ok (decide (theaterAddress ∈ st.authorizedTheaters sessionId))

/-- Return tuple of getSessionInfo. -/
structure SessionInfo where
  title : String
  venue : String
  startTime : Nat
  endTime : Nat
  theaterCompany : Address
  voteCount : Nat
  isActive : Bool
  decryptionRequested : Bool
  decryptionCompleted : Bool
deriving Repr, DecidableEq

/-- getSessionInfo (lines 296-325). -/
def getSessionInfo (st : VoteState) (sessionId : Nat) :
    Except VoteError SessionInfo :=
  let session := st.sessions sessionId
  if session.startTime = 0 then .error .SessionNotFound
  else .ok
    { title := session.title, venue := session.venue,
      startTime := session.startTime, endTime := session.endTime,
      theaterCompany := session.theaterCompany, voteCount := session.voteCount,
      isActive := session.isActive,
      decryptionRequested := session.decryptionRequested,
      decryptionCompleted := session.decryptionCompleted }

/-- getEncryptedAggregates (lines 333-352). -/
def getEncryptedAggregates (st : VoteState) (sessionId : Nat) :
    Except VoteError (Nat × Nat × Nat × Nat) :=
  let session := st.sessions sessionId
  if session.startTime = 0 then .error .SessionNotFound
  else .ok (session.aggregatedPlotTension, session.aggregatedPerformance,
    session.aggregatedStageDesign, session.aggregatedPacing)

/-- getTotalSessions (lines 356-358). -/
def getTotalSessions (st : VoteState) : Nat := st.nextSessionId

/-- storeDecryptedResults (lines 366-404).  The final branch models the
computation of the DecryptionCompleted event averages
`voteCount > 0 ? total / uint16(voteCount) : 0`: the uint16 cast keeps
voteCount modulo 2^16, and dividing by a zero cast result reverts with
Panic(0x12), rolling back the whole call. -/
def storeDecryptedResults (st : VoteState) (sender : Address) (sessionId : Nat)
    (totalPlotTension totalPerformance totalStageDesign totalPacing : Nat) :
    Except VoteError VoteState :=
  let session := st.sessions sessionId
  if session.startTime = 0 then .error .SessionNotFound
  else if sender ∉ st.authorizedTheaters sessionId then .error .UnauthorizedTheater
  else if session.decryptionRequested = false then
    .error (.RevertMsg "Decryption not requested")
  else if session.decryptionCompleted = true then
    .error (.RevertMsg "Results already stored")
  else if 0 < session.voteCount ∧ session.voteCount % 65536 = 0 then
    .error (.ArithmeticError 18)
  else
    let st1 := { st with decryptedResults := fun n =>
      if n = sessionId then
        { totalPlotTension := totalPlotTension, totalPerformance := totalPerformance,
          totalStageDesign := totalStageDesign, totalPacing := totalPacing }
      else st.decryptedResults n }
    .ok (setSession st1 sessionId { session with decryptionCompleted := true })

/-- Return tuple of getDecryptedResults. -/
structure DecryptedView where
  totalPlotTension : Nat
  totalPerformance : Nat
  totalStageDesign : Nat
  totalPacing : Nat
  avgPlotTension : Nat
  avgPerformance : Nat
  avgStageDesign : Nat
  avgPacing : Nat
  voteCount : Nat
deriving Repr, DecidableEq

/-- getDecryptedResults (lines 417-450).  Averages are
`voteCount > 0 ? total / uint16(voteCount) : 0`; as above the uint16
cast keeps voteCount modulo 2^16 and a zero cast result with positive
voteCount reverts with Panic(0x12). -/
def getDecryptedResults (st : VoteState) (sessionId : Nat) :
    Except VoteError DecryptedView :=
  let session := st.sessions sessionId
  if session.startTime = 0 then .error .SessionNotFound
  else if session.decryptionCompleted = false then
    .error (.RevertMsg "Results not yet decrypted")
  else if 0 < session.voteCount ∧ session.voteCount % 65536 = 0 then
    .error (.ArithmeticError 18)
  else
    let results := st.decryptedResults sessionId
    let voteCount := session.voteCount
    .ok
      { totalPlotTension := results.totalPlotTension,
        totalPerformance := results.totalPerformance,
        totalStageDesign := results.totalStageDesign,
        totalPacing := results.totalPacing,
        avgPlotTension :=
          if 0 < voteCount then results.totalPlotTension / (voteCount % 65536) else 0,
        avgPerformance :=
          if 0 < voteCount then results.totalPerformance / (voteCount % 65536) else 0,
        avgStageDesign :=
          if 0 < voteCount then results.totalStageDesign / (voteCount % 65536) else 0,
        avgPacing :=
          if 0 < voteCount then results.totalPacing / (voteCount % 65536) else 0,
        voteCount := voteCount }

/-- One external transaction against the contract, with its sender and,
where the source reads block.timestamp, its timestamp. -/
inductive Op where
  | createSessionOp (sender : Address) (title venue : String) (startTime endTime : Nat)
  | submitVoteOp (sender : Address)
      (now sessionId inputPlotTension inputPerformance inputStageDesign inputPacing
        commentHash : Nat)
  | authorizeTheaterOp (sender : Address) (sessionId : Nat) (theaterAddress : Address)
  | requestDecryptionOp (sender : Address) (now sessionId : Nat)
  | endSessionOp (sender : Address) (sessionId : Nat)
  | storeDecryptedResultsOp (sender : Address)
      (sessionId totalPlotTension totalPerformance totalStageDesign totalPacing : Nat)

/-- A reverted transaction leaves storage unchanged. -/
def applyExcept (st : VoteState) : Except VoteError VoteState → VoteState
  | .ok st1 => st1
  | .error _ => st

/-- Effect of one transaction on storage (reverts roll back). -/
def execOp (st : VoteState) : Op → VoteState
  | .createSessionOp sender title venue startTime endTime =>
      (createSession st sender title venue startTime endTime).2
  | .submitVoteOp sender now sessionId pt pf sd pc c =>
      applyExcept st (submitVote st sender now sessionId pt pf sd pc c)
  | .authorizeTheaterOp sender sessionId a =>
      applyExcept st (authorizeTheater st sender sessionId a)
  | .requestDecryptionOp sender now sessionId =>
      applyExcept st (requestDecryption st sender now sessionId)
  | .endSessionOp sender sessionId =>
      applyExcept st (endSession st sender sessionId)
  | .storeDecryptedResultsOp sender sessionId a b c d =>
      applyExcept st (storeDecryptedResults st sender sessionId a b c d)

/-- A serialized sequence of transactions. -/
def execTrace (st : VoteState) (ops : List Op) : VoteState := ops.foldl execOp st

/-- Arguments of one submitVote call. -/
structure Vote where
  sender : Address
  now : Nat
  plotTension : Nat
  performance : Nat
  stageDesign : Nat
  pacing : Nat
  commentHash : Nat
deriving Repr, DecidableEq

/-- A sequence of submitVote calls against one session, stopping at the
first revert. -/
def runVotes (st : VoteState) (sessionId : Nat) : List Vote → Except VoteError VoteState
  | [] => .ok st
  | v :: vs =>
    match submitVote st v.sender v.now sessionId
        v.plotTension v.performance v.stageDesign v.pacing v.commentHash with
    | .error e => .error e
    | .ok st1 => runVotes st1 sessionId vs

/-- Whether a call succeeded. -/
def exceptIsOk {ε α : Type} : Except ε α → Bool
  | .ok _ => true
  | .error _ => false

/-- Extract the success value, with a default for the error case. -/
def exceptGetD {ε α : Type} : Except ε α → α → α
  | .ok a, _ => a
  | .error _, d => d

/-
Concrete storage snapshots reached through the public entry points,
used to instantiate the theorems below on explicit inputs.
Address 7 is the theater company, addresses 3, 4, 5 are voters; the
session runs from time 1 to time 10.
-/

/-- After createSession by address 7. -/
def demoState0 : VoteState :=
  (createSession initState 7 "Hamlet Preview" "Small Theater" 1 10).2

/-- After one vote by address 3 at time 5 with all four ratings 80. -/
def demoState1 : VoteState :=
  exceptGetD (submitVote demoState0 3 5 0 80 80 80 80 0) initState

/-- After the creator ends the session. -/
def demoState2 : VoteState := exceptGetD (endSession demoState1 7 0) initState

/-- After the creator requests decryption at time 11. -/
def demoState3 : VoteState := exceptGetD (requestDecryption demoState2 7 11 0) initState

/-- After the creator stores decrypted totals 255 for each dimension. -/
def demoState4 : VoteState :=
  exceptGetD (storeDecryptedResults demoState3 7 0 255 255 255 255) initState

/-- Three votes with plot-tension ratings 80, 90, 85 (the worked example
of the specification). -/
def demoVotesB : List Vote :=
  [⟨3, 5, 80, 80, 80, 80, 0⟩, ⟨4, 5, 90, 90, 90, 90, 0⟩, ⟨5, 5, 85, 85, 85, 85, 0⟩]

/-- After the three demoVotesB votes on a fresh session. -/
def demoStateB1 : VoteState := exceptGetD (runVotes demoState0 0 demoVotesB) initState

/-- After the creator ends that session. -/
def demoStateB2 : VoteState := exceptGetD (endSession demoStateB1 7 0) initState

/-- After decryption is requested at time 11. -/
def demoStateB3 : VoteState := exceptGetD (requestDecryption demoStateB2 7 11 0) initState

/-- After totals 255 are stored for each dimension. -/
def demoStateB4 : VoteState :=
  exceptGetD (storeDecryptedResults demoStateB3 7 0 255 255 255 255) initState

/-- C9: two submitVote calls that differ only in the commentHash argument
produce identical outcomes: the same success or failure verdict and the
same resulting storage.  The source leaves the bytes32 parameter unnamed
and never reads it, and the storage type retains no per-voter content
beyond the has-voted flag and the encrypted accumulators. -/
theorem submitVote_commentHash_irrelevant (st : VoteState) (sender : Address)
    (now sessionId inputPlotTension inputPerformance inputStageDesign inputPacing
      commentHash1 commentHash2 : Nat) :
    submitVote st sender now sessionId
        inputPlotTension inputPerformance inputStageDesign inputPacing commentHash1
      = submitVote st sender now sessionId
        inputPlotTension inputPerformance inputStageDesign inputPacing commentHash2 := rfl

/-- C10: createSession accepts startTime = 0, allocates the next
sequential id and increments getTotalSessions, yet because a zero
startTime is the existence sentinel, every subsequent per-session
operation and every existence-checking read on that id reverts with
SessionNotFound. -/
theorem createSession_zero_startTime_unusable (st : VoteState) (sender : Address)
    (title venue : String) (endTime : Nat) :
    (createSession st sender title venue 0 endTime).1 = st.nextSessionId ∧
    getTotalSessions (createSession st sender title venue 0 endTime).2
      = getTotalSessions st + 1 ∧
    (((createSession st sender title venue 0 endTime).2).sessions
        st.nextSessionId).startTime = 0 ∧
    (∀ s2 now pt pf sd pc c,
      submitVote (createSession st sender title venue 0 endTime).2 s2 now
        st.nextSessionId pt pf sd pc c = .error .SessionNotFound) ∧
    (∀ s2, endSession (createSession st sender title venue 0 endTime).2 s2
      st.nextSessionId = .error .SessionNotFound) ∧
    (∀ s2 a, authorizeTheater (createSession st sender title venue 0 endTime).2 s2
      st.nextSessionId a = .error .SessionNotFound) ∧
    (∀ s2 now, requestDecryption (createSession st sender title venue 0 endTime).2 s2 now
      st.nextSessionId = .error .SessionNotFound) ∧
    (∀ s2 a b c d,
      storeDecryptedResults (createSession st sender title venue 0 endTime).2 s2
        st.nextSessionId a b c d = .error .SessionNotFound) ∧
    getSessionInfo (createSession st sender title venue 0 endTime).2 st.nextSessionId
      = .error .SessionNotFound ∧
    getEncryptedAggregates (createSession st sender title venue 0 endTime).2 st.nextSessionId
      = .error .SessionNotFound ∧
    getDecryptedResults (createSession st sender title venue 0 endTime).2 st.nextSessionId
      = .error .SessionNotFound := by
  refine ⟨rfl, rfl, ?_, ?_, ?_, ?_, ?_, ?_, ?_, ?_, ?_⟩ <;>
    simp [createSession, setSession, submitVote, validateVote, endSession,
      authorizeTheater, requestDecryption, storeDecryptedResults,
      getSessionInfo, getEncryptedAggregates, getDecryptedResults]

/-- C3 (amended): the reads that do check existence — getSessionInfo,
getEncryptedAggregates, getDecryptedResults — revert with
SessionNotFound on a missing session, while hasVoted and isAuthorized
perform no existence check and simply return the mapping value (false
for any address under a missing session).  Reads have no side effects:
they return no updated storage. -/
theorem reads_on_missing_session (st : VoteState) (sessionId : Nat) (a : Address)
    (h : (st.sessions sessionId).startTime = 0) :
    getSessionInfo st sessionId = .error .SessionNotFound ∧
    getEncryptedAggregates st sessionId = .error .SessionNotFound ∧
    getDecryptedResults st sessionId = .error .SessionNotFound ∧
    hasVoted st sessionId a = .ok (decide (a ∈ st.hasVotedSet sessionId)) ∧
    isAuthorized st sessionId a = .ok (decide (a ∈ st.authorizedTheaters sessionId)) := by
  refine ⟨?_, ?_, ?_, rfl, rfl⟩ <;>
    simp [getSessionInfo, getEncryptedAggregates, getDecryptedResults, h]

/-- Witness for reads_on_missing_session at the freshly deployed
storage, session 0, address 3. -/
theorem reads_on_missing_session_witness :
    (initState.sessions 0).startTime = 0 ∧
    (getSessionInfo initState 0 = .error .SessionNotFound ∧
     getEncryptedAggregates initState 0 = .error .SessionNotFound ∧
     getDecryptedResults initState 0 = .error .SessionNotFound ∧
     hasVoted initState 0 3 = .ok (decide ((3 : Address) ∈ initState.hasVotedSet 0)) ∧
     isAuthorized initState 0 3 = .ok (decide ((3 : Address) ∈ initState.authorizedTheaters 0))) :=
  ⟨rfl, reads_on_missing_session initState 0 3 rfl⟩

/-- C3 counterexample: on the freshly deployed storage session 0 does
not exist, yet hasVoted and isAuthorized do not revert with
SessionNotFound — they return ok false. -/
theorem reads_on_missing_session_counterexample :
    (initState.sessions 0).startTime = 0 ∧
    hasVoted initState 0 3 = .ok false ∧
    isAuthorized initState 0 3 = .ok false ∧
    hasVoted initState 0 3 ≠ .error .SessionNotFound ∧
    isAuthorized initState 0 3 ≠ .error .SessionNotFound := by
  refine ⟨rfl, rfl, rfl, ?_, ?_⟩ <;> intro h <;> exact Except.noConfusion h

/-- C1 (amended): requestDecryption rejects with SessionStillActive
exactly when the session exists, the caller is authorized, and the
session is both flagged active and within its time window; once the
current time is past endTime the call is allowed even while isActive is
still true, so no explicit endSession is required, and
decryptionRequested can become true on a session whose isActive flag is
still true. -/
theorem requestDecryption_endSession_not_required (st : VoteState) (sender : Address)
    (now sessionId : Nat) :
    (requestDecryption st sender now sessionId = .error .SessionStillActive ↔
      ((st.sessions sessionId).startTime ≠ 0 ∧
       sender ∈ st.authorizedTheaters sessionId ∧
       (st.sessions sessionId).isActive = true ∧
       now ≤ (st.sessions sessionId).endTime)) ∧
    (exceptIsOk (requestDecryption st sender now sessionId) = true ↔
      ((st.sessions sessionId).startTime ≠ 0 ∧
       sender ∈ st.authorizedTheaters sessionId ∧
       ¬((st.sessions sessionId).isActive = true ∧ now ≤ (st.sessions sessionId).endTime) ∧
       MIN_VOTES_FOR_DECRYPTION ≤ (st.sessions sessionId).voteCount ∧
       (st.sessions sessionId).decryptionRequested = false)) := by
  simp only [requestDecryption, exceptIsOk, MIN_VOTES_FOR_DECRYPTION]
  split_ifs with h1 h2 h3 h4 h5 <;> simp_all <;> omega

/-- C1 counterexample: one vote is in, time 11 is past endTime 10,
isActive is still true and no endSession was called, yet
requestDecryption by the authorized creator succeeds and sets
decryptionRequested on the still-active session — the claim says it
must fail with the still-active error. -/
theorem requestDecryption_counterexample :
    (demoState1.sessions 0).isActive = true ∧
    (demoState1.sessions 0).endTime = 10 ∧
    exceptIsOk (requestDecryption demoState1 7 11 0) = true ∧
    (requestDecryption demoState1 7 11 0).map
      (fun s => ((s.sessions 0).isActive, (s.sessions 0).decryptionRequested))
      = .ok (true, true) := ⟨rfl, rfl, rfl, rfl⟩

/-- Reading the updated session back from a point update of the
_sessions mapping. -/
lemma setSession_sessions_self (st : VoteState) (sessionId : Nat) (s : Session) :
    (setSession st sessionId s).sessions sessionId = s := by
  simp [setSession]

/-- Two successive point updates of the _sessions mapping at the same
key collapse to the second. -/
lemma setSession_setSession (st : VoteState) (sessionId : Nat) (s1 s2 : Session) :
    setSession (setSession st sessionId s1) sessionId s2 = setSession st sessionId s2 := by
  unfold setSession
  congr 1
  funext n
  by_cases hn : n = sessionId <;> simp [hn]

/-- C8: endSession on an existing session rejects every caller other
than the creator, and for the creator it succeeds with no time-window
check (the source reads no timestamp), sets isActive to false, and is
idempotent: a second successful call by the creator returns the state
unchanged rather than an error. -/
theorem endSession_creator_unconditional_idempotent (st : VoteState) (sender : Address)
    (sessionId : Nat) (hex : (st.sessions sessionId).startTime ≠ 0) :
    (sender ≠ (st.sessions sessionId).theaterCompany →
      endSession st sender sessionId = .error .OnlyTheaterCompany) ∧
    (sender = (st.sessions sessionId).theaterCompany →
      exceptIsOk (endSession st sender sessionId) = true ∧
      ∀ st', endSession st sender sessionId = .ok st' →
        (st'.sessions sessionId).isActive = false ∧
        endSession st' sender sessionId = .ok st') := by
  refine ⟨fun hne => by simp [endSession, hex, hne], fun heq => ⟨?_, ?_⟩⟩
  · simp [endSession, exceptIsOk, hex, heq]
  · intro st' h
    simp [endSession, hex, heq] at h
    subst h
    refine ⟨by rw [setSession_sessions_self], ?_⟩
    simp only [endSession, setSession_sessions_self]
    rw [if_neg (by simpa using hex), if_neg (by simp [heq]), setSession_setSession]

/-- Witness for endSession_creator_unconditional_idempotent: the creator
ends the demo session while it is still inside its time window, and a
second endSession call returns the identical state. -/
theorem endSession_creator_unconditional_idempotent_witness :
    ((demoState1.sessions 0).startTime ≠ 0 ∧
     7 = (demoState1.sessions 0).theaterCompany ∧
     endSession demoState1 7 0 = .ok demoState2) ∧
    ((demoState2.sessions 0).isActive = false ∧ endSession demoState2 7 0 = .ok demoState2) :=
  ⟨⟨by decide, rfl, rfl⟩,
   ((endSession_creator_unconditional_idempotent demoState1 7 0 (by decide)).2 rfl).2
     demoState2 rfl⟩

/-- C5 (amended): submitVote checks its four preconditions in source
order — existence, active flag, time window, duplicate vote — but the
errors are not pairwise distinct: both the inactive-session check and
the out-of-window check fail with the same SessionNotActive error.  A
second vote from an address that already voted fails with AlreadyVoted
regardless of the rating values whenever the three earlier checks pass
(session exists, is active, and the call is inside the time window);
when the session has been ended or the window has passed, the second
vote fails earlier, with SessionNotActive.  A revert leaves all state
unchanged. -/
theorem submitVote_check_order (st : VoteState) (sender : Address) (now sessionId : Nat) :
    ((st.sessions sessionId).startTime = 0 →
      validateVote st sender now sessionId = .error .SessionNotFound) ∧
    ((st.sessions sessionId).startTime ≠ 0 →
      (st.sessions sessionId).isActive = false →
      validateVote st sender now sessionId = .error .SessionNotActive) ∧
    ((st.sessions sessionId).startTime ≠ 0 →
      (st.sessions sessionId).isActive = true →
      (now < (st.sessions sessionId).startTime ∨ (st.sessions sessionId).endTime < now) →
      validateVote st sender now sessionId = .error .SessionNotActive) ∧
    ((st.sessions sessionId).startTime ≠ 0 →
      (st.sessions sessionId).isActive = true →
      (st.sessions sessionId).startTime ≤ now → now ≤ (st.sessions sessionId).endTime →
      sender ∈ st.hasVotedSet sessionId →
      ∀ pt pf sd pc c,
        submitVote st sender now sessionId pt pf sd pc c = .error .AlreadyVoted) := by
  refine ⟨?_, ?_, ?_, ?_⟩
  · intro h0; simp [validateVote, h0]
  · intro h0 hia; simp [validateVote, h0, hia]
  · intro h0 hia hw; simp [validateVote, h0, hia, hw]
  · intro h0 hia h1 h2 hv pt pf sd pc c
    have hw : ¬(now < (st.sessions sessionId).startTime ∨
        (st.sessions sessionId).endTime < now) := by omega
    simp [submitVote, validateVote, h0, hia, hw, hv]

/-- Witness for submitVote_check_order: inside the time window of the
active demo session, a second vote by address 3 with different ratings
fails with AlreadyVoted. -/
theorem submitVote_check_order_witness :
    ((demoState1.sessions 0).startTime ≠ 0 ∧
     (demoState1.sessions 0).isActive = true ∧
     (demoState1.sessions 0).startTime ≤ 5 ∧ 5 ≤ (demoState1.sessions 0).endTime ∧
     (3 : Address) ∈ demoState1.hasVotedSet 0) ∧
    submitVote demoState1 3 5 0 90 90 90 90 1 = .error .AlreadyVoted :=
  ⟨⟨by decide, rfl, by decide, by decide, by decide⟩,
   (submitVote_check_order demoState1 3 5 0).2.2.2 (by decide) rfl (by decide) (by decide)
     (by decide) 90 90 90 90 1⟩

/-- C5 counterexample: the errors of the four checks are not pairwise
distinct, and a second vote does not always fail with the
duplicate-vote error.  After the creator ends the demo session, a
repeat vote by address 3 — which has already voted — fails with
SessionNotActive, the same error produced by the out-of-window check on
the still-active session at time 20. -/
theorem submitVote_check_order_counterexample :
    ((demoState2.sessions 0).startTime ≠ 0 ∧ (demoState2.sessions 0).isActive = false ∧
     (3 : Address) ∈ demoState2.hasVotedSet 0 ∧
     validateVote demoState2 3 5 0 = .error .SessionNotActive ∧
     submitVote demoState2 3 5 0 80 80 80 80 0 = .error .SessionNotActive) ∧
    ((demoState1.sessions 0).startTime ≠ 0 ∧ (demoState1.sessions 0).isActive = true ∧
     (demoState1.sessions 0).endTime < 20 ∧
     validateVote demoState1 9 20 0 = .error .SessionNotActive) :=
  ⟨⟨by decide, rfl, by decide, rfl, rfl⟩, ⟨by decide, rfl, by decide, rfl⟩⟩

/-- C6: storeDecryptedResults succeeds at most once per session.
Success requires the caller to be in the authorization set,
decryptionRequested to be true and decryptionCompleted to be false; a
successful call stores the four submitted totals and sets
decryptionCompleted, after which a second call by any authorized
address fails with the "Results already stored" rejection — and, since
a revert rolls the call back, the stored totals are left unchanged. -/
theorem storeDecryptedResults_at_most_once (st : VoteState) (sender : Address)
    (sessionId a b c d : Nat) :
    (exceptIsOk (storeDecryptedResults st sender sessionId a b c d) = true →
      sender ∈ st.authorizedTheaters sessionId ∧
      (st.sessions sessionId).decryptionRequested = true ∧
      (st.sessions sessionId).decryptionCompleted = false) ∧
    (∀ st', storeDecryptedResults st sender sessionId a b c d = .ok st' →
      (st'.sessions sessionId).decryptionCompleted = true ∧
      st'.decryptedResults sessionId =
        { totalPlotTension := a, totalPerformance := b,
          totalStageDesign := c, totalPacing := d } ∧
      ∀ sender2 a2 b2 c2 d2, sender2 ∈ st'.authorizedTheaters sessionId →
        storeDecryptedResults st' sender2 sessionId a2 b2 c2 d2
          = .error (.RevertMsg "Results already stored")) := by
  constructor
  · simp only [storeDecryptedResults, exceptIsOk]
    split_ifs with h1 h2 h3 h4 h5 <;> simp_all
  · intro st' h
    simp only [storeDecryptedResults] at h
    split_ifs at h with h1 h2 h3 h4 h5 <;> simp_all
    subst h
    refine ⟨by simp [setSession_sessions_self], by simp [setSession], ?_⟩
    intro sender2 a2 b2 c2 d2 hmem
    simp only [storeDecryptedResults, setSession_sessions_self] at hmem ⊢
    rw [if_neg (by simpa using h1), if_neg (by simpa using hmem)]
    simp [h3]

/-- Witness for storeDecryptedResults_at_most_once: on the demo session
with decryption requested, the creator stores totals 255 once, and a
repeat call by the same authorized address is rejected with "Results
already stored". -/
theorem storeDecryptedResults_at_most_once_witness :
    storeDecryptedResults demoState3 7 0 255 255 255 255 = .ok demoState4 ∧
    (7 : Address) ∈ demoState4.authorizedTheaters 0 ∧
    storeDecryptedResults demoState4 7 0 1 1 1 1
      = .error (.RevertMsg "Results already stored") :=
  ⟨rfl, by decide,
   ((storeDecryptedResults_at_most_once demoState3 7 0 255 255 255 255).2 demoState4
     rfl).2.2 7 1 1 1 1 (by decide)⟩

/-
A finished session with n tallied votes and stored totals 100, used to
exercise the average computation of getDecryptedResults at large vote
counts.  Such a session is reachable in principle: n distinct addresses
can each vote once (storeDecryptedResults itself only succeeds when
n % 2^16 is nonzero, which holds for the n = 65537 instance used
below).
-/

/-- A completed session record with voteCount n. -/
def overflowSession (n : Nat) : Session :=
  { zeroSession with
    startTime := 1, endTime := 10, theaterCompany := 7, voteCount := n,
    isActive := false, decryptionRequested := true, decryptionCompleted := true }

/-- Storage holding one completed session with voteCount n and stored
totals 100 in each dimension. -/
def overflowState (n : Nat) : VoteState :=
  { initState with
    nextSessionId := 1,
    sessions := fun k => if k = 0 then overflowSession n else zeroSession,
    decryptedResults := fun k =>
      if k = 0 then
        { totalPlotTension := 100, totalPerformance := 100,
          totalStageDesign := 100, totalPacing := 100 }
      else zeroResults,
    authorizedTheaters := fun k => if k = 0 then {7} else ∅ }

/-- C7 (amended): getDecryptedResults on an existing session always
fails before decryptionCompleted is true; afterwards it returns the
four stored totals unchanged, and averages computed as each total
divided — with integer truncation — by voteCount reduced modulo 2^16
(the uint16 cast in the source).  A zero voteCount yields zero averages
instead of a division-by-zero failure, and for any voteCount below
2^16 the average is exactly total divided by voteCount, as the claim
states; but when voteCount is a nonzero multiple of 2^16 the division
panics, and above 2^16 the divisor is the reduced value, not
voteCount. -/
theorem getDecryptedResults_division (st : VoteState) (sessionId : Nat)
    (hex : (st.sessions sessionId).startTime ≠ 0) :
    ((st.sessions sessionId).decryptionCompleted = false →
      getDecryptedResults st sessionId = .error (.RevertMsg "Results not yet decrypted")) ∧
    ((st.sessions sessionId).decryptionCompleted = true →
      ((st.sessions sessionId).voteCount = 0 →
        getDecryptedResults st sessionId = .ok
          { totalPlotTension := (st.decryptedResults sessionId).totalPlotTension,
            totalPerformance := (st.decryptedResults sessionId).totalPerformance,
            totalStageDesign := (st.decryptedResults sessionId).totalStageDesign,
            totalPacing := (st.decryptedResults sessionId).totalPacing,
            avgPlotTension := 0, avgPerformance := 0, avgStageDesign := 0,
            avgPacing := 0, voteCount := 0 }) ∧
      (0 < (st.sessions sessionId).voteCount →
        (st.sessions sessionId).voteCount % 65536 ≠ 0 →
        getDecryptedResults st sessionId = .ok
          { totalPlotTension := (st.decryptedResults sessionId).totalPlotTension,
            totalPerformance := (st.decryptedResults sessionId).totalPerformance,
            totalStageDesign := (st.decryptedResults sessionId).totalStageDesign,
            totalPacing := (st.decryptedResults sessionId).totalPacing,
            avgPlotTension := (st.decryptedResults sessionId).totalPlotTension
              / ((st.sessions sessionId).voteCount % 65536),
            avgPerformance := (st.decryptedResults sessionId).totalPerformance
              / ((st.sessions sessionId).voteCount % 65536),
            avgStageDesign := (st.decryptedResults sessionId).totalStageDesign
              / ((st.sessions sessionId).voteCount % 65536),
            avgPacing := (st.decryptedResults sessionId).totalPacing
              / ((st.sessions sessionId).voteCount % 65536),
            voteCount := (st.sessions sessionId).voteCount }) ∧
      (0 < (st.sessions sessionId).voteCount →
        (st.sessions sessionId).voteCount < 65536 →
        getDecryptedResults st sessionId = .ok
          { totalPlotTension := (st.decryptedResults sessionId).totalPlotTension,
            totalPerformance := (st.decryptedResults sessionId).totalPerformance,
            totalStageDesign := (st.decryptedResults sessionId).totalStageDesign,
            totalPacing := (st.decryptedResults sessionId).totalPacing,
            avgPlotTension := (st.decryptedResults sessionId).totalPlotTension
              / (st.sessions sessionId).voteCount,
            avgPerformance := (st.decryptedResults sessionId).totalPerformance
              / (st.sessions sessionId).voteCount,
            avgStageDesign := (st.decryptedResults sessionId).totalStageDesign
              / (st.sessions sessionId).voteCount,
            avgPacing := (st.decryptedResults sessionId).totalPacing
              / (st.sessions sessionId).voteCount,
            voteCount := (st.sessions sessionId).voteCount }) ∧
      (0 < (st.sessions sessionId).voteCount →
        (st.sessions sessionId).voteCount % 65536 = 0 →
        getDecryptedResults st sessionId = .error (.ArithmeticError 18))) := by
  refine ⟨fun hc => by simp [getDecryptedResults, hex, hc], fun hc => ⟨?_, ?_, ?_, ?_⟩⟩
  · intro hvc; simp [getDecryptedResults, hex, hc, hvc]
  · intro h0 hm; simp [getDecryptedResults, hex, hc, h0, hm]
  · intro h0 hlt
    have hmod : (st.sessions sessionId).voteCount % 65536
        = (st.sessions sessionId).voteCount := Nat.mod_eq_of_lt hlt
    have hm : (st.sessions sessionId).voteCount % 65536 ≠ 0 := by omega
    simp [getDecryptedResults, hex, hc, h0, hm, hmod]
    omega
  · intro h0 hm; simp [getDecryptedResults, hex, hc, h0, hm]

/-- Witness for getDecryptedResults_division: the demo session with 3
votes and stored totals 255 reports totals 255 and truncated averages
255 / 3 = 85, the worked example of the specification. -/
theorem getDecryptedResults_division_witness :
    ((demoStateB4.sessions 0).startTime ≠ 0 ∧
     (demoStateB4.sessions 0).decryptionCompleted = true ∧
     0 < (demoStateB4.sessions 0).voteCount ∧
     (demoStateB4.sessions 0).voteCount < 65536) ∧
    getDecryptedResults demoStateB4 0 = .ok
      { totalPlotTension := 255, totalPerformance := 255, totalStageDesign := 255,
        totalPacing := 255, avgPlotTension := 85, avgPerformance := 85,
        avgStageDesign := 85, avgPacing := 85, voteCount := 3 } :=
  ⟨⟨by decide, rfl, by decide, by decide⟩,
   ((getDecryptedResults_division demoStateB4 0 (by decide)).2 rfl).2.2.1
     (by decide) (by decide)⟩

/-- C7 counterexample: with voteCount = 65537 and stored total 100 the
claimed average is 100 / 65537 = 0, but the code divides by the uint16
cast 65537 % 2^16 = 1 and reports 100; and with voteCount = 65536 the
cast is zero and the call reverts with Panic(0x12) instead of returning
averages. -/
theorem getDecryptedResults_division_counterexample :
    ((overflowState 65537).sessions 0).decryptionCompleted = true ∧
    ((overflowState 65537).sessions 0).voteCount = 65537 ∧
    ((overflowState 65537).decryptedResults 0).totalPlotTension = 100 ∧
    (getDecryptedResults (overflowState 65537) 0).map (fun r => r.avgPlotTension)
      = .ok 100 ∧
    (100 : Nat) / 65537 = 0 ∧
    getDecryptedResults (overflowState 65536) 0 = .error (.ArithmeticError 18) :=
  ⟨rfl, rfl, rfl, rfl, rfl, rfl⟩

/-- Effect of one successful submitVote on the voted session: each
accumulator advances by the 16-bit input modulo 2^16, the timing fields
and active flag are unchanged, voteCount increments, and the sender is
added to the has-voted set. -/
lemma submitVote_ok_effects (st : VoteState) (sender : Address)
    (now sessionId pt pf sd pc c : Nat) (st' : VoteState)
    (h : submitVote st sender now sessionId pt pf sd pc c = .ok st') :
    (st'.sessions sessionId).aggregatedPlotTension
      = ((st.sessions sessionId).aggregatedPlotTension + pt % 65536) % 65536 ∧
    (st'.sessions sessionId).aggregatedPerformance
      = ((st.sessions sessionId).aggregatedPerformance + pf % 65536) % 65536 ∧
    (st'.sessions sessionId).aggregatedStageDesign
      = ((st.sessions sessionId).aggregatedStageDesign + sd % 65536) % 65536 ∧
    (st'.sessions sessionId).aggregatedPacing
      = ((st.sessions sessionId).aggregatedPacing + pc % 65536) % 65536 ∧
    (st'.sessions sessionId).startTime = (st.sessions sessionId).startTime ∧
    (st'.sessions sessionId).endTime = (st.sessions sessionId).endTime ∧
    (st'.sessions sessionId).isActive = (st.sessions sessionId).isActive ∧
    (st'.sessions sessionId).voteCount = (st.sessions sessionId).voteCount + 1 ∧
    st'.hasVotedSet sessionId = insert sender (st.hasVotedSet sessionId) := by
  unfold submitVote at h
  cases hv : validateVote st sender now sessionId with
  | error e => rw [hv] at h; cases h
  | ok u =>
    rw [hv] at h
    replace h := Except.ok.inj h
    subst h
    simp [processVote, setSession, fheAdd, fheFromExternal]

/-- A successful sequence of submitVote calls advances each accumulator
by the sum of the submitted ratings, modulo 2^16. -/
lemma runVotes_ok_aggregate (sessionId : Nat) (votes : List Vote) :
    ∀ st st' : VoteState, runVotes st sessionId votes = .ok st' →
      (st.sessions sessionId).aggregatedPlotTension < 65536 →
      (st.sessions sessionId).aggregatedPerformance < 65536 →
      (st.sessions sessionId).aggregatedStageDesign < 65536 →
      (st.sessions sessionId).aggregatedPacing < 65536 →
      ((st'.sessions sessionId).aggregatedPlotTension
          = ((st.sessions sessionId).aggregatedPlotTension
              + (votes.map Vote.plotTension).sum) % 65536 ∧
       (st'.sessions sessionId).aggregatedPerformance
          = ((st.sessions sessionId).aggregatedPerformance
              + (votes.map Vote.performance).sum) % 65536 ∧
       (st'.sessions sessionId).aggregatedStageDesign
          = ((st.sessions sessionId).aggregatedStageDesign
              + (votes.map Vote.stageDesign).sum) % 65536 ∧
       (st'.sessions sessionId).aggregatedPacing
          = ((st.sessions sessionId).aggregatedPacing
              + (votes.map Vote.pacing).sum) % 65536) := by
  induction votes with
  | nil =>
    intro st st' h h1 h2 h3 h4
    simp only [runVotes] at h
    replace h := Except.ok.inj h
    subst h
    simp [Nat.mod_eq_of_lt, h1, h2, h3, h4]
  | cons v vs ih =>
    intro st st' h h1 h2 h3 h4
    simp only [runVotes] at h
    cases hsv : submitVote st v.sender v.now sessionId
        v.plotTension v.performance v.stageDesign v.pacing v.commentHash with
    | error e => rw [hsv] at h; cases h
    | ok st1 =>
      rw [hsv] at h
      obtain ⟨e1, e2, e3, e4, -, -, -, -, -⟩ :=
        submitVote_ok_effects st v.sender v.now sessionId
          v.plotTension v.performance v.stageDesign v.pacing v.commentHash st1 hsv
      have b1 : (st1.sessions sessionId).aggregatedPlotTension < 65536 := by omega
      have b2 : (st1.sessions sessionId).aggregatedPerformance < 65536 := by omega
      have b3 : (st1.sessions sessionId).aggregatedStageDesign < 65536 := by omega
      have b4 : (st1.sessions sessionId).aggregatedPacing < 65536 := by omega
      obtain ⟨r1, r2, r3, r4⟩ := ih st1 st' h b1 b2 b3 b4
      refine ⟨?_, ?_, ?_, ?_⟩ <;> simp only [List.map_cons, List.sum_cons, r1, r2, r3, r4,
        e1, e2, e3, e4] <;> omega

/-- A sequence of votes on an existing, active session, all inside the
time window, from pairwise distinct senders none of whom has voted yet,
succeeds in its entirety. -/
lemma runVotes_ok_of_fresh (sessionId : Nat) (votes : List Vote) :
    ∀ st : VoteState,
      (st.sessions sessionId).startTime ≠ 0 →
      (st.sessions sessionId).isActive = true →
      (∀ v ∈ votes, (st.sessions sessionId).startTime ≤ v.now ∧
        v.now ≤ (st.sessions sessionId).endTime) →
      (∀ v ∈ votes, v.sender ∉ st.hasVotedSet sessionId) →
      (votes.map Vote.sender).Nodup →
      exceptIsOk (runVotes st sessionId votes) = true := by
  induction votes with
  | nil => intro st _ _ _ _ _; rfl
  | cons v vs ih =>
    intro st hst hia hwin hnv hnd
    obtain ⟨hw1, hw2⟩ := hwin v (List.mem_cons_self v vs)
    have hn := hnv v (List.mem_cons_self v vs)
    have hcond : ¬(v.now < (st.sessions sessionId).startTime ∨
        (st.sessions sessionId).endTime < v.now) := by omega
    have hvalid : validateVote st v.sender v.now sessionId = .ok () := by
      simp [validateVote, hst, hia, hcond, hn]
    have hsub : submitVote st v.sender v.now sessionId
        v.plotTension v.performance v.stageDesign v.pacing v.commentHash
        = .ok (processVote st v.sender sessionId
            v.plotTension v.performance v.stageDesign v.pacing) := by
      simp [submitVote, hvalid]
    obtain ⟨-, -, -, -, f1, f2, f3, -, f5⟩ :=
      submitVote_ok_effects st v.sender v.now sessionId
        v.plotTension v.performance v.stageDesign v.pacing v.commentHash _ hsub
    obtain ⟨hndh, hndt⟩ := List.nodup_cons.mp hnd
    simp only [runVotes, hsub]
    apply ih
    · rw [f1]; exact hst
    · rw [f3]; exact hia
    · intro w hw
      rw [f1, f2]
      exact hwin w (List.mem_cons_of_mem v hw)
    · intro w hw
      rw [f5, Finset.mem_insert]
      push_neg
      refine ⟨?_, hnv w (List.mem_cons_of_mem v hw)⟩
      intro hws
      exact hndh (hws ▸ List.mem_map_of_mem Vote.sender hw)
    · exact hndt

/-- C2 (amended): each accumulator of a session is initialized to an
encrypted zero at creation, and after any successful sequence of
submitVote calls its decrypted value equals the arithmetic sum of the
plaintext ratings submitted, reduced modulo 2^16 — the euint16
accumulators wrap on overflow.  Whenever the sum stays below 2^16 (as
in the 80 + 90 + 85 = 255 example) this is the exact sum claimed. -/
theorem submitVote_aggregates_sum_mod (st0 : VoteState) (sender : Address)
    (title venue : String) (startTime endTime : Nat) (votes : List Vote)
    (st' : VoteState)
    (h : runVotes (createSession st0 sender title venue startTime endTime).2
      (createSession st0 sender title venue startTime endTime).1 votes = .ok st') :
    (((createSession st0 sender title venue startTime endTime).2.sessions
        (createSession st0 sender title venue startTime endTime).1).aggregatedPlotTension
        = 0 ∧
     ((createSession st0 sender title venue startTime endTime).2.sessions
        (createSession st0 sender title venue startTime endTime).1).aggregatedPerformance
        = 0 ∧
     ((createSession st0 sender title venue startTime endTime).2.sessions
        (createSession st0 sender title venue startTime endTime).1).aggregatedStageDesign
        = 0 ∧
     ((createSession st0 sender title venue startTime endTime).2.sessions
        (createSession st0 sender title venue startTime endTime).1).aggregatedPacing
        = 0) ∧
    ((st'.sessions (createSession st0 sender title venue startTime endTime).1).aggregatedPlotTension
        = (votes.map Vote.plotTension).sum % 65536 ∧
     (st'.sessions (createSession st0 sender title venue startTime endTime).1).aggregatedPerformance
        = (votes.map Vote.performance).sum % 65536 ∧
     (st'.sessions (createSession st0 sender title venue startTime endTime).1).aggregatedStageDesign
        = (votes.map Vote.stageDesign).sum % 65536 ∧
     (st'.sessions (createSession st0 sender title venue startTime endTime).1).aggregatedPacing
        = (votes.map Vote.pacing).sum % 65536) := by
  have hz : ((createSession st0 sender title venue startTime endTime).2.sessions
      (createSession st0 sender title venue startTime endTime).1)
      = { title := title, venue := venue, startTime := startTime, endTime := endTime,
          theaterCompany := sender, voteCount := 0, isActive := true,
          decryptionRequested := false, decryptionCompleted := false,
          aggregatedPlotTension := 0, aggregatedPerformance := 0,
          aggregatedStageDesign := 0, aggregatedPacing := 0 } := by
    simp [createSession, setSession, fheAsEuint16]
  obtain ⟨r1, r2, r3, r4⟩ :=
    runVotes_ok_aggregate (createSession st0 sender title venue startTime endTime).1 votes
      (createSession st0 sender title venue startTime endTime).2 st' h
      (by rw [hz]; norm_num) (by rw [hz]; norm_num) (by rw [hz]; norm_num)
      (by rw [hz]; norm_num)
  rw [hz] at r1 r2 r3 r4
  simp only [Nat.zero_add] at r1 r2 r3 r4
  exact ⟨by rw [hz]; exact ⟨rfl, rfl, rfl, rfl⟩, r1, r2, r3, r4⟩

/-- Witness for submitVote_aggregates_sum_mod: three votes with
plot-tension ratings 80, 90, 85 on a fresh session leave every
accumulator holding the exact sum 255 (255 % 2^16 = 255). -/
theorem submitVote_aggregates_sum_mod_witness :
    runVotes demoState0 0 demoVotesB = .ok demoStateB1 ∧
    (((demoState0.sessions 0).aggregatedPlotTension = 0 ∧
      (demoState0.sessions 0).aggregatedPerformance = 0 ∧
      (demoState0.sessions 0).aggregatedStageDesign = 0 ∧
      (demoState0.sessions 0).aggregatedPacing = 0) ∧
     ((demoStateB1.sessions 0).aggregatedPlotTension
        = (demoVotesB.map Vote.plotTension).sum % 65536 ∧
      (demoStateB1.sessions 0).aggregatedPerformance
        = (demoVotesB.map Vote.performance).sum % 65536 ∧
      (demoStateB1.sessions 0).aggregatedStageDesign
        = (demoVotesB.map Vote.stageDesign).sum % 65536 ∧
      (demoStateB1.sessions 0).aggregatedPacing
        = (demoVotesB.map Vote.pacing).sum % 65536)) :=
  ⟨rfl, submitVote_aggregates_sum_mod initState 7 "Hamlet Preview" "Small Theater"
    1 10 demoVotesB demoStateB1 rfl⟩

/-- 656 voters (addresses 0 to 655) who all rate 100 in every
dimension at time 5. -/
def wrapVotes : List Vote := (List.range 656).map fun i => ⟨i, 5, 100, 100, 100, 100, 0⟩

/-- C2 counterexample: 656 successful votes of rating 100 — every
rating inside the documented [0,100] range — sum to 65600, yet the
decrypted accumulator holds 65600 % 2^16 = 64, not the exact
arithmetic sum the claim demands. -/
theorem submitVote_aggregates_counterexample :
    (∀ v ∈ wrapVotes, v.plotTension = 100) ∧
    (wrapVotes.map Vote.plotTension).sum = 65600 ∧
    exceptIsOk (runVotes demoState0 0 wrapVotes) = true ∧
    (runVotes demoState0 0 wrapVotes).map (fun s => (s.sessions 0).aggregatedPlotTension)
      = .ok 64 ∧
    (64 : Nat) ≠ 65600 := by
  have hpt : wrapVotes.map Vote.plotTension = List.replicate 656 100 := by
    simp only [wrapVotes, List.map_map]
    rw [show (Vote.plotTension ∘ fun i => (⟨i, 5, 100, 100, 100, 100, 0⟩ : Vote))
        = fun _ => (100 : Nat) from rfl]
    rw [List.map_const', List.length_range]
  have hsum : (wrapVotes.map Vote.plotTension).sum = 65600 := by
    rw [hpt, List.sum_const_nat]
  have hsend : wrapVotes.map Vote.sender = List.range 656 := by
    simp only [wrapVotes, List.map_map]
    rw [show (Vote.sender ∘ fun i => (⟨i, 5, 100, 100, 100, 100, 0⟩ : Vote))
        = fun i => i from rfl]
    exact List.map_id' (List.range 656)
  have hok : exceptIsOk (runVotes demoState0 0 wrapVotes) = true := by
    apply runVotes_ok_of_fresh 0 wrapVotes demoState0 (by decide) rfl
    · intro v hv
      simp only [wrapVotes, List.mem_map, List.mem_range] at hv
      obtain ⟨i, -, rfl⟩ := hv
      exact ⟨(by decide : (1 : Nat) ≤ 5), (by decide : (5 : Nat) ≤ 10)⟩
    · intro v hv
      show v.sender ∉ demoState0.hasVotedSet 0
      rw [show demoState0.hasVotedSet 0 = ∅ from rfl]
      exact Finset.not_mem_empty v.sender
    · rw [hsend]; exact List.nodup_range 656
  refine ⟨?_, hsum, hok, ?_, by norm_num⟩
  · intro v hv
    simp only [wrapVotes, List.mem_map, List.mem_range] at hv
    obtain ⟨i, -, rfl⟩ := hv
    rfl
  · cases hr : runVotes demoState0 0 wrapVotes with
    | error e => rw [hr] at hok; cases hok
    | ok s =>
      obtain ⟨r1, -, -, -⟩ := runVotes_ok_aggregate 0 wrapVotes demoState0 s hr
        (by decide) (by decide) (by decide) (by decide)
      simp only [Except.map]
      rw [r1, show (demoState0.sessions 0).aggregatedPlotTension = 0 from rfl, hsum]

/-- Each session's voteCount equals the number of distinct addresses
whose has-voted flag is set. -/
def CountInv (st : VoteState) : Prop :=
  ∀ sessionId, (st.sessions sessionId).voteCount = (st.hasVotedSet sessionId).card

/-- Ids at or above _nextSessionId were never written: their session is
absent (zero startTime) and nobody has voted there. -/
def FreshInv (st : VoteState) : Prop :=
  ∀ sessionId, st.nextSessionId ≤ sessionId →
    (st.sessions sessionId).startTime = 0 ∧ st.hasVotedSet sessionId = ∅

/-- The inductive invariant of the contract storage. -/
def Inv (st : VoteState) : Prop := CountInv st ∧ FreshInv st

/-- The freshly deployed storage satisfies the invariant. -/
lemma inv_initState : Inv initState := ⟨fun _ => rfl, fun _ _ => ⟨rfl, rfl⟩⟩

/-- createSession preserves the invariant: the new session starts with
voteCount 0 and an empty voter set. -/
lemma inv_createSession (st : VoteState) (sender : Address) (title venue : String)
    (startTime endTime : Nat) (h : Inv st) :
    Inv (createSession st sender title venue startTime endTime).2 := by
  obtain ⟨hc, hf⟩ := h
  constructor
  · intro sid
    by_cases hs : sid = st.nextSessionId
    · subst hs
      have he : st.hasVotedSet st.nextSessionId = ∅ := (hf st.nextSessionId le_rfl).2
      simp [createSession, setSession, he]
    · simpa [createSession, setSession, hs] using hc sid
  · intro sid hle
    simp only [createSession, setSession] at hle ⊢
    have hs : ¬(sid = st.nextSessionId) := by omega
    simpa [hs] using hf sid (by omega)

/-- Frame of a successful submitVote: the session id counter and all
other sessions are untouched, the voted session existed, and its sender
had not voted before. -/
lemma submitVote_ok_frame (st : VoteState) (sender : Address)
    (now sessionId pt pf sd pc c : Nat) (st' : VoteState)
    (h : submitVote st sender now sessionId pt pf sd pc c = .ok st') :
    st'.nextSessionId = st.nextSessionId ∧
    (st.sessions sessionId).startTime ≠ 0 ∧
    sender ∉ st.hasVotedSet sessionId ∧
    ∀ sid, sid ≠ sessionId →
      st'.sessions sid = st.sessions sid ∧ st'.hasVotedSet sid = st.hasVotedSet sid := by
  unfold submitVote at h
  cases hv : validateVote st sender now sessionId with
  | error e => rw [hv] at h; cases h
  | ok u =>
    rw [hv] at h
    replace h := Except.ok.inj h
    subst h
    have hfacts : (st.sessions sessionId).startTime ≠ 0 ∧
        sender ∉ st.hasVotedSet sessionId := by
      simp only [validateVote] at hv
      split_ifs at hv with h1 h2 h3 h4
      exact ⟨h1, h4⟩
    refine ⟨rfl, hfacts.1, hfacts.2, ?_⟩
    intro sid hs
    constructor <;> simp [processVote, setSession, hs]

/-- submitVote preserves the invariant whether it reverts or succeeds:
on success the incremented voteCount matches the one-larger voter
set. -/
lemma inv_submitVote (st : VoteState) (sender : Address)
    (now sessionId pt pf sd pc c : Nat) (h : Inv st) :
    Inv (applyExcept st (submitVote st sender now sessionId pt pf sd pc c)) := by
  obtain ⟨hc, hf⟩ := h
  cases hsv : submitVote st sender now sessionId pt pf sd pc c with
  | error e => exact ⟨hc, hf⟩
  | ok st' =>
    show Inv st'
    obtain ⟨-, -, -, -, -, -, -, f8, f9⟩ := submitVote_ok_effects st sender now sessionId
      pt pf sd pc c st' hsv
    obtain ⟨g1, g2, g3, g4⟩ := submitVote_ok_frame st sender now sessionId
      pt pf sd pc c st' hsv
    constructor
    · intro sid
      by_cases hs : sid = sessionId
      · subst hs
        rw [f8, f9, hc sid, Finset.card_insert_of_not_mem g3]
      · rw [(g4 sid hs).1, (g4 sid hs).2]
        exact hc sid
    · intro sid hle
      rw [g1] at hle
      have hs : sid ≠ sessionId := by
        intro he
        subst he
        exact g2 (hf sid hle).1
      rw [(g4 sid hs).1, (g4 sid hs).2]
      exact hf sid hle

/-- A point session update that keeps voteCount and startTime preserves
the invariant. -/
lemma inv_setSession_flags (st : VoteState) (sessionId : Nat) (s : Session)
    (hvc : s.voteCount = (st.sessions sessionId).voteCount)
    (hst : s.startTime = (st.sessions sessionId).startTime)
    (h : Inv st) : Inv (setSession st sessionId s) := by
  obtain ⟨hc, hf⟩ := h
  constructor
  · intro sid
    by_cases hs : sid = sessionId
    · subst hs
      simp [setSession, hvc]
      exact hc sid
    · simp [setSession, hs]
      exact hc sid
  · intro sid hle
    by_cases hs : sid = sessionId
    · subst hs
      refine ⟨?_, (hf sid hle).2⟩
      simp [setSession, hst]
      exact (hf sid hle).1
    · simp [setSession, hs]
      exact hf sid hle

/-- endSession preserves the invariant. -/
lemma inv_endSession (st : VoteState) (sender : Address) (sessionId : Nat) (h : Inv st) :
    Inv (applyExcept st (endSession st sender sessionId)) := by
  simp only [endSession]
  split_ifs <;> first
    | exact h
    | exact inv_setSession_flags st sessionId _ rfl rfl h

/-- requestDecryption preserves the invariant. -/
lemma inv_requestDecryption (st : VoteState) (sender : Address) (now sessionId : Nat)
    (h : Inv st) :
    Inv (applyExcept st (requestDecryption st sender now sessionId)) := by
  simp only [requestDecryption]
  split_ifs <;> first
    | exact h
    | exact inv_setSession_flags st sessionId _ rfl rfl h

/-- storeDecryptedResults preserves the invariant. -/
lemma inv_storeDecryptedResults (st : VoteState) (sender : Address)
    (sessionId a b c d : Nat) (h : Inv st) :
    Inv (applyExcept st (storeDecryptedResults st sender sessionId a b c d)) := by
  simp only [storeDecryptedResults]
  split_ifs <;> first
    | exact h
    | exact inv_setSession_flags _ sessionId _ rfl rfl h

/-- authorizeTheater preserves the invariant (it touches only the
authorization mapping). -/
lemma inv_authorizeTheater (st : VoteState) (sender : Address) (sessionId : Nat)
    (theaterAddress : Address) (h : Inv st) :
    Inv (applyExcept st (authorizeTheater st sender sessionId theaterAddress)) := by
  simp only [authorizeTheater]
  split_ifs <;> exact h

/-- Every transaction preserves the invariant. -/
lemma inv_execOp (st : VoteState) (op : Op) (h : Inv st) : Inv (execOp st op) := by
  cases op with
  | createSessionOp sender title venue startTime endTime =>
    exact inv_createSession st sender title venue startTime endTime h
  | submitVoteOp sender now sessionId pt pf sd pc c =>
    exact inv_submitVote st sender now sessionId pt pf sd pc c h
  | authorizeTheaterOp sender sessionId a =>
    exact inv_authorizeTheater st sender sessionId a h
  | requestDecryptionOp sender now sessionId =>
    exact inv_requestDecryption st sender now sessionId h
  | endSessionOp sender sessionId => exact inv_endSession st sender sessionId h
  | storeDecryptedResultsOp sender sessionId a b c d =>
    exact inv_storeDecryptedResults st sender sessionId a b c d h

/-- Every serialized transaction sequence preserves the invariant. -/
lemma inv_execTrace (ops : List Op) :
    ∀ st : VoteState, Inv st → Inv (execTrace st ops) := by
  induction ops with
  | nil => intro st h; exact h
  | cons op ops ih =>
    intro st h
    exact ih (execOp st op) (inv_execOp st op h)

/-- C4: after any sequence of transactions from deployment, every
session's voteCount equals the number of distinct addresses whose
has-voted flag is true for that session; and each successful submitVote
increments the session's voteCount by exactly one while adding the
caller to its voter set. -/
theorem voteCount_equals_distinct_voters :
    (∀ ops sessionId,
      ((execTrace initState ops).sessions sessionId).voteCount
        = ((execTrace initState ops).hasVotedSet sessionId).card) ∧
    (∀ st sender now sessionId pt pf sd pc c st',
      submitVote st sender now sessionId pt pf sd pc c = .ok st' →
      (st'.sessions sessionId).voteCount = (st.sessions sessionId).voteCount + 1 ∧
      st'.hasVotedSet sessionId = insert sender (st.hasVotedSet sessionId) ∧
      sender ∈ st'.hasVotedSet sessionId) := by
  constructor
  · intro ops sessionId
    exact (inv_execTrace ops initState inv_initState).1 sessionId
  · intro st sender now sessionId pt pf sd pc c st' h
    obtain ⟨-, -, -, -, -, -, -, f8, f9⟩ :=
      submitVote_ok_effects st sender now sessionId pt pf sd pc c st' h
    exact ⟨f8, f9, by rw [f9]; exact Finset.mem_insert_self sender _⟩

/-- Witness for voteCount_equals_distinct_voters: the first vote on the
demo session raises voteCount from 0 to 1 and flags address 3. -/
theorem voteCount_equals_distinct_voters_witness :
    submitVote demoState0 3 5 0 80 80 80 80 0 = .ok demoState1 ∧
    ((demoState1.sessions 0).voteCount = (demoState0.sessions 0).voteCount + 1 ∧
     demoState1.hasVotedSet 0 = insert 3 (demoState0.hasVotedSet 0) ∧
     (3 : Address) ∈ demoState1.hasVotedSet 0) :=
  ⟨rfl, voteCount_equals_distinct_voters.2 demoState0 3 5 0 80 80 80 80 0 demoState1 rfl⟩

end FringeStageVote
